import Mathlib

/-!
Verification of the crdb-provider reconciliation logic.

The Go source (a Terraform provider for CockroachDB) is embedded shallowly:
each CRUD entry point becomes a pure Lean function from an explicit
environment (the results the SQL driver would return at each call site) and
the decoded resource model to an `OpResult` recording the diagnostics added,
the SQL statements issued (in order, tagged with the driver call used), the
persisted state, and whether the connection handle was opened and closed.

Conventions taken from the source:
* `types.String.String()` renders a Terraform string attribute wrapped in
  double quotes; this is `goQuote`.
* `strings.Replace(s, "\"", "", -1)` removes every double-quote character;
  this is `removeQuotes`.
* `database/sql`: `QueryRow(...).Scan(...)` yields `sql.ErrNoRows` exactly
  when the query returns zero rows; a query answered from a table list
  therefore yields `SqlError.errNoRows` iff the list is empty.
-/

namespace CrdbProvider

/-- Errors returned by the SQL driver. `errNoRows` is `sql.ErrNoRows`
(zero rows scanned); `other` is any other driver error. -/
inductive SqlError where
  | errNoRows : SqlError
  | other : String → SqlError
deriving DecidableEq

/-- The message a driver error formats to via `%s` in `fmt.Sprintf`. -/
def errMsg : SqlError → String
  | SqlError.errNoRows => "sql: no rows in result set"
  | SqlError.other m => m

/-- A statement handed to the driver, tagged with the call used:
`client.Exec`, `client.QueryRow(...).Scan`, or `client.Query`. -/
inductive Stmt where
  | exec : String → Stmt
  | queryRow : String → Stmt
  | query : String → Stmt
deriving DecidableEq

/-- `types.String.String()`: the underlying value wrapped in double quotes. -/
def goQuote (s : String) : String := "\"" ++ s ++ "\""

/-- Go `strings.Replace(s, "\"", "", -1)`: drop every `"` character. -/
def removeQuotes (s : String) : String :=
  ⟨s.data.filter (fun c => c ≠ '"')⟩

/-- Result of one reconciliation entry point: diagnostics added, driver
statements issued in order, the state left behind (`none` after
`RemoveResource`), and whether a handle was opened / closed before return. -/
structure OpResult (α : Type) where
  diags : List (String × String)
  executed : List Stmt
  state : Option α
  opened : Bool
  closed : Bool
deriving DecidableEq

/-- `DatabaseResourceModel` from `database_resource.go`: just a name. -/
structure DatabaseResourceModel where
  name : String
deriving DecidableEq

/-- `UserResourceModel` from `user_resource.go`. -/
structure UserResourceModel where
  username : String
  password : String
  database : String
  privileges : List String
deriving DecidableEq

/-- `ChangefeedResourceModel` from the changefeed resource file. -/
structure ChangefeedResourceModel where
  table : String
  bucket : String
  token : String
  database : String
  jobID : String
deriving DecidableEq

/-- `privilegeSlice` from `user_resource.go` line 41. -/
def privilegeSlice : List String := ["select", "update", "insert", "delete"]

/-- The privilege loop of `UserResource.Create` (lines 102-115): walk the
element list with its index, reject the first element whose unquoted form is
not in `privilegeSlice` (the error carries `s.String()`, i.e. the quoted
form), otherwise append `s.String()` plus `", "` for every non-last index. -/
def privStringAux : List String → Nat → Nat → String → Except String String
  | [], _, _, acc => Except.ok acc
  | s :: rest, last, i, acc =>
    if removeQuotes (goQuote s) ∈ privilegeSlice then
      if i < last then privStringAux rest last (i + 1) (acc ++ goQuote s ++ ", ")
      else privStringAux rest last (i + 1) (acc ++ goQuote s)
    else Except.error (goQuote s)

/-- Validation plus rendering: run the loop with `last = len - 1`, `i = 0`,
empty accumulator, then apply the final `strings.Replace` stripping quotes
(line 116 of `user_resource.go`). -/
def renderPrivileges (privs : List String) : Except String String :=
  match privStringAux privs (privs.length - 1) 0 "" with
  | Except.error s => Except.error s
  | Except.ok privString => Except.ok (removeQuotes privString)

/-- Specification-side join: the names joined by the literal two-character
separator `", "`, preserving input order. -/
def joinPrivs : List String → String
  | [] => ""
  | [s] => s
  | s :: rest => s ++ ", " ++ joinPrivs rest

/-- The string a valid privilege list renders to: the quoted elements are
joined by `", "` and the final `strings.Replace` strips the quotes. -/
def renderedPrivs (privs : List String) : String :=
  removeQuotes (joinPrivs (privs.map goQuote))

example : renderPrivileges ["select", "delete", "select"] =
    Except.ok "select, delete, select" := rfl

example : renderPrivileges ["select", "drop"] =
    Except.error "\"drop\"" := rfl

example : joinPrivs ["select", "delete", "select"] = "select, delete, select" := by
  decide

/-! ### SQL statement builders shared by the user operations -/

/-- `SET DATABASE=%s; CREATE USER %s WITH PASSWORD '%s';` with the database
and username formatted through `types.String.String()` (quoted) and the
password pre-stripped of quotes (line 101/118 of `user_resource.go`). -/
def userCreateQuery (data : UserResourceModel) : String :=
  "SET DATABASE=" ++ goQuote data.database ++ "; CREATE USER " ++
    goQuote data.username ++ " WITH PASSWORD '" ++
    removeQuotes (goQuote data.password) ++ "';"

/-- `ALTER DEFAULT PRIVILEGES FOR ALL ROLES GRANT %s ON TABLES TO %s;`
(line 126 of `user_resource.go`). -/
def alterStmt (privileges username : String) : String :=
  "ALTER DEFAULT PRIVILEGES FOR ALL ROLES GRANT " ++ privileges ++
    " ON TABLES TO " ++ goQuote username ++ ";"

/-- `GRANT %s ON * TO %s;` (line 127 of `user_resource.go`). -/
def grantStmt (privileges username : String) : String :=
  "GRANT " ++ privileges ++ " ON * TO " ++ goQuote username ++ ";"

/-! ### Database resource operations -/

/-- Environment for `DatabaseResource.Delete`: the connect result and the
result of executing the DROP statement. -/
structure DbDeleteEnv where
  connectErr : Option String
  dropErr : Option SqlError

/-- `DatabaseResource.Delete` (database_resource.go lines 169-202): connect,
then `Exec("DROP DATABASE " + data.Name.String())`, reporting a diagnostic
on either failure. The handle is closed via a deferred call registered
right after a successful connect. -/
def databaseDelete (env : DbDeleteEnv) (data : DatabaseResourceModel) :
    OpResult DatabaseResourceModel :=
  match env.connectErr with
  | some e =>
    { diags := [("Failed to connect to cockroach", e)], executed := [],
      state := some data, opened := false, closed := false }
  | none =>
    let sqlStmt := "DROP DATABASE " ++ goQuote data.name
    match env.dropErr with
    | some e =>
      { diags := [("Delete db error", "Unable to delete database, got error: " ++ errMsg e)],
        executed := [Stmt.exec sqlStmt], state := some data,
        opened := true, closed := true }
    | none =>
      { diags := [], executed := [Stmt.exec sqlStmt], state := some data,
        opened := true, closed := true }

/-- Environment for `DatabaseResource.Read`: the connect result and the
result of `QueryRow(q).Scan(&name)` against the catalog. -/
structure DbReadEnv where
  connectErr : Option String
  scanRes : Except SqlError String

/-- `DatabaseResource.Read` (database_resource.go lines 107-152): query the
catalog for the held name; on `sql.ErrNoRows` assign the zero-value scan
result to `data.Name` and remove the resource; afterwards, if the scanned
name differs from `data.Name`, refresh and persist it. The deferred close
at the end of the body is reached on every path (no early return follows a
successful connect), so the handle is always closed. -/
def databaseRead (env : DbReadEnv) (data : DatabaseResourceModel) :
    OpResult DatabaseResourceModel :=
  match env.connectErr with
  | some e =>
    { diags := [("Failed to connect to cockroach", e)], executed := [],
      state := some data, opened := false, closed := false }
  | none =>
    let queryName := removeQuotes (goQuote data.name)
    let q := "SELECT name FROM crdb_internal.databases WHERE name = '" ++
      queryName ++ "'"
    let name : String :=
      match env.scanRes with
      | Except.ok s => s
      | Except.error _ => ""
    let isNoRows : Bool :=
      match env.scanRes with
      | Except.error SqlError.errNoRows => true
      | _ => false
    let data1 : DatabaseResourceModel := if isNoRows then { name := name } else data
    let st1 : Option DatabaseResourceModel := if isNoRows then none else some data
    if name ≠ data1.name then
      { diags := [], executed := [Stmt.queryRow q], state := some { name := name },
        opened := true, closed := true }
    else
      { diags := [], executed := [Stmt.queryRow q], state := st1,
        opened := true, closed := true }

/-! ### User resource operations -/

/-- Environment for `UserResource.Create`: connect result, result of the
CREATE USER `Exec`, the database's tables (answering `SHOW TABLES;`), and
the results of the grant/alter `Exec` calls, whose error returns the Go
code discards. -/
structure UserCreateEnv where
  connectErr : Option String
  createUserErr : Option SqlError
  tables : List String
  grantErr : Option SqlError
  alterErr : Option SqlError

/-- `UserResource.Create` (user_resource.go lines 84-138): connect, validate
and render the privilege list, `Exec` the CREATE USER statement, probe
`SHOW TABLES;`, and on zero rows `Exec` only the ALTER DEFAULT PRIVILEGES
statement, otherwise `Exec` the direct GRANT and then the ALTER statement;
the return values of those last `Exec` calls are discarded. -/
def userCreate (env : UserCreateEnv) (data : UserResourceModel) :
    OpResult UserResourceModel :=
  match env.connectErr with
  | some e =>
    { diags := [("Failed to connect to cockroach", e)], executed := [],
      state := none, opened := false, closed := false }
  | none =>
    match renderPrivileges data.privileges with
    | Except.error s =>
      { diags := [("Invalid privilege", "Unable to set invalid privilege: " ++ s)],
        executed := [], state := none, opened := true, closed := true }
    | Except.ok privileges =>
      let query := userCreateQuery data
      match env.createUserErr with
      | some e =>
        { diags := [("Create user error", "Unable to create user, got error: " ++ errMsg e)],
          executed := [Stmt.exec query], state := none,
          opened := true, closed := true }
      | none =>
        if env.tables.isEmpty then
          { diags := [],
            executed := [Stmt.exec query, Stmt.queryRow "SHOW TABLES;",
              Stmt.exec (alterStmt privileges data.username)],
            state := some data, opened := true, closed := true }
        else
          { diags := [],
            executed := [Stmt.exec query, Stmt.queryRow "SHOW TABLES;",
              Stmt.exec (grantStmt privileges data.username),
              Stmt.exec (alterStmt privileges data.username)],
            state := some data, opened := true, closed := true }

/-- One row of `SHOW GRANTS FOR <user>` as scanned by `UserResource.Read`. -/
structure GrantRow where
  db : String
  schema : String
  relation : String
  grantee : String
  privilege : String
  grantable : String

/-- Environment for `UserResource.Read`: connect result and the result of
`client.Query` on the grants query. -/
structure UserReadEnv where
  connectErr : Option String
  queryRes : Except SqlError (List GrantRow)

/-- `UserResource.Read` (user_resource.go lines 140-186): connect, run
`SET DATABASE=%s; SHOW GRANTS FOR %s`; if the query errors, remove the
resource and return — this return precedes the `defer client.Close()`
written at the very end of the function body, so on that path the handle is
never closed. On success the rows are folded into a distinct-privilege list
that the function then discards, the unchanged record is persisted, and the
deferred close is registered and runs. -/
def userRead (env : UserReadEnv) (data : UserResourceModel) :
    OpResult UserResourceModel :=
  match env.connectErr with
  | some e =>
    { diags := [("Failed to connect to cockroach", e)], executed := [],
      state := some data, opened := false, closed := false }
  | none =>
    let queryName := removeQuotes (goQuote data.username)
    let q := "SET DATABASE=" ++ goQuote data.database ++ "; SHOW GRANTS FOR " ++
      queryName
    match env.queryRes with
    | Except.error _ =>
      { diags := [], executed := [Stmt.query q], state := none,
        opened := true, closed := false }
    | Except.ok rows =>
      let _privilegeReadSlice := rows.foldl
        (fun acc r => if r.privilege ∈ acc then acc else acc ++ [r.privilege]) []
      { diags := [], executed := [Stmt.query q], state := some data,
        opened := true, closed := true }

/-- Environment for `UserResource.Update`: connect result, the tables
answering the first `SHOW TABLES` probe, the result of the combined
revoke/drop `Exec`, the CREATE USER `Exec` result, the tables answering the
second probe, and the discarded grant/alter `Exec` results. -/
structure UserUpdateEnv where
  connectErr : Option String
  tablesBefore : List String
  dropErr : Option SqlError
  createUserErr : Option SqlError
  tablesAfter : List String
  grantErr : Option SqlError
  alterErr : Option SqlError

/-- `UserResource.Update` (user_resource.go lines 188-284): connect; build
the revoke/drop statements against the prior username when it changed and
the desired one otherwise; probe `SET DATABASE=%s; SHOW TABLES;` and `Exec`
the alter+drop (no tables) or alter+revoke+drop (tables) string, aborting
with a diagnostic on failure; then repeat the create sequence: validate and
render the privileges, `Exec` CREATE USER, probe `SHOW TABLES;`, and issue
the grant/alter statements whose `Exec` errors are discarded. -/
def userUpdate (env : UserUpdateEnv) (st data : UserResourceModel) :
    OpResult UserResourceModel :=
  match env.connectErr with
  | some e =>
    { diags := [("Failed to connect to cockroach", e)], executed := [],
      state := some st, opened := false, closed := false }
  | none =>
    let target := if st.username ≠ data.username then st.username else data.username
    let alter := "SET DATABASE=" ++ goQuote data.database ++
      "; ALTER DEFAULT PRIVILEGES FOR ALL ROLES REVOKE ALL ON TABLES FROM " ++
      goQuote target ++ "; "
    let revoke := "REVOKE ALL ON * FROM " ++ goQuote target ++ "; "
    let dropUser := "DROP USER " ++ goQuote target ++ ";"
    let showQ := "SET DATABASE=" ++ goQuote data.database ++ "; SHOW TABLES;"
    let dropStmt :=
      if env.tablesBefore.isEmpty then alter ++ dropUser
      else alter ++ revoke ++ dropUser
    let ex0 := [Stmt.queryRow showQ, Stmt.exec dropStmt]
    match env.dropErr with
    | some e =>
      { diags := [((if env.tablesBefore.isEmpty then "Delete user error (no tables)"
            else "Delete user error (tables)"),
          "Unable to delete user, got error: " ++ errMsg e)],
        executed := ex0, state := some st, opened := true, closed := true }
    | none =>
      match renderPrivileges data.privileges with
      | Except.error s =>
        { diags := [("Invalid privilege", "Unable to set invalid privilege: " ++ s)],
          executed := ex0, state := some st, opened := true, closed := true }
      | Except.ok privileges =>
        let query := userCreateQuery data
        match env.createUserErr with
        | some e =>
          { diags := [("Create user error", "Unable to create user, got error: " ++ errMsg e)],
            executed := ex0 ++ [Stmt.exec query], state := some st,
            opened := true, closed := true }
        | none =>
          if env.tablesAfter.isEmpty then
            { diags := [],
              executed := ex0 ++ [Stmt.exec query, Stmt.queryRow "SHOW TABLES;",
                Stmt.exec (alterStmt privileges data.username)],
              state := some data, opened := true, closed := true }
          else
            { diags := [],
              executed := ex0 ++ [Stmt.exec query, Stmt.queryRow "SHOW TABLES;",
                Stmt.exec (grantStmt privileges data.username),
                Stmt.exec (alterStmt privileges data.username)],
              state := some data, opened := true, closed := true }

/-! ### Changefeed resource operations -/

/-- Environment for `ChangefeedResource.Update`: connect result, the result
of the CANCEL JOB `Exec`, and the result of scanning the single row returned
by the CREATE CHANGEFEED statement. -/
structure CfUpdateEnv where
  connectErr : Option String
  cancelErr : Option SqlError
  createRes : Except SqlError String

/-- `SET DATABASE=%s; CANCEL JOB %s;` built from the planned record's
database and the prior record's job id, both stripped of quotes
(changefeed file lines 161-164). -/
def cfCancelQuery (data data2 : ChangefeedResourceModel) : String :=
  "SET DATABASE=" ++ removeQuotes (goQuote data.database) ++ "; CANCEL JOB " ++
    removeQuotes (goQuote data2.jobID) ++ ";"

/-- `SET DATABASE=%s; CREATE CHANGEFEED FOR TABLE %s INTO 'gs://%s?AUTH=specified&CREDENTIALS=%s';`
built from the planned record (changefeed file lines 171-175). -/
def cfCreateQuery (data : ChangefeedResourceModel) : String :=
  "SET DATABASE=" ++ removeQuotes (goQuote data.database) ++
    "; CREATE CHANGEFEED FOR TABLE " ++ removeQuotes (goQuote data.table) ++
    " INTO 'gs://" ++ removeQuotes (goQuote data.bucket) ++
    "?AUTH=specified&CREDENTIALS=" ++ removeQuotes (goQuote data.token) ++ "';"

/-- `ChangefeedResource.Update` (changefeed file lines 139-187): connect,
`Exec` the CANCEL JOB statement for the prior job id, aborting with a
diagnostic on failure; then run the CREATE CHANGEFEED statement through
`QueryRow(...).Scan(&id)`, aborting on failure, and otherwise persist the
planned record with its job id replaced by the scanned value. -/
def changefeedUpdate (env : CfUpdateEnv) (data data2 : ChangefeedResourceModel) :
    OpResult ChangefeedResourceModel :=
  match env.connectErr with
  | some e =>
    { diags := [("Failed to connect to cockroach", e)], executed := [],
      state := some data2, opened := false, closed := false }
  | none =>
    let db := removeQuotes (goQuote data.database)
    let id := removeQuotes (goQuote data2.jobID)
    let deleteQuery := cfCancelQuery data data2
    match env.cancelErr with
    | some e =>
      { diags := [("Update changefeed error (cancel)",
          "Unable to update changefeed, got error: " ++ errMsg e ++ " " ++ db ++ " " ++ id)],
        executed := [Stmt.exec deleteQuery], state := some data2,
        opened := true, closed := true }
    | none =>
      let query := cfCreateQuery data
      match env.createRes with
      | Except.error e =>
        { diags := [("Update changefeed error (create)",
            "Unable to update changefeed, got error: " ++ errMsg e)],
          executed := [Stmt.exec deleteQuery, Stmt.queryRow query],
          state := some data2, opened := true, closed := true }
      | Except.ok newId =>
        { diags := [],
          executed := [Stmt.exec deleteQuery, Stmt.queryRow query],
          state := some { data with jobID := newId },
          opened := true, closed := true }

/-! ### String helper lemmas -/

lemma str_append_assoc (a b c : String) : a ++ b ++ c = a ++ (b ++ c) := by
  cases a with
  | mk la =>
    cases b with
    | mk lb =>
      cases c with
      | mk lc => exact congrArg String.mk (List.append_assoc la lb lc)

lemma str_empty_append (s : String) : "" ++ s = s := by
  cases s with
  | mk l => rfl

lemma str_append_empty (s : String) : s ++ "" = s := by
  cases s with
  | mk l => exact congrArg String.mk (List.append_nil l)

lemma removeQuotes_append (a b : String) :
    removeQuotes (a ++ b) = removeQuotes a ++ removeQuotes b := by
  cases a with
  | mk la =>
    cases b with
    | mk lb => exact congrArg String.mk (List.filter_append la lb)

lemma removeQuotes_goQuote (s : String) :
    removeQuotes (goQuote s) = removeQuotes s := by
  have h : goQuote s = "\"" ++ s ++ "\"" := rfl
  rw [h, removeQuotes_append, removeQuotes_append]
  have hq : removeQuotes "\"" = "" := rfl
  rw [hq, str_empty_append, str_append_empty]

lemma removeQuotes_of_mem_privilegeSlice {p : String}
    (h : p ∈ privilegeSlice) : removeQuotes p = p := by
  simp only [privilegeSlice, List.mem_cons, List.not_mem_nil, or_false] at h
  rcases h with rfl | rfl | rfl | rfl <;> rfl

lemma removeQuotes_comma_space : removeQuotes ", " = ", " := rfl

lemma head_append (a b : String) (c : Char) (h : a.data.head? = some c) :
    (a ++ b).data.head? = some c := by
  cases a with
  | mk la =>
    cases b with
    | mk lb =>
      cases la with
      | nil => simp at h
      | cons d t => simpa using h

lemma string_ne_of_head {a b : String} {c₁ c₂ : Char}
    (ha : a.data.head? = some c₁) (hb : b.data.head? = some c₂)
    (h : c₁ ≠ c₂) : a ≠ b := by
  intro e
  rw [e, hb] at ha
  exact h (Option.some.inj ha).symm

lemma grantStmt_head (p u : String) : (grantStmt p u).data.head? = some 'G' := by
  unfold grantStmt
  exact head_append _ _ _ (head_append _ _ _ (head_append _ _ _ (head_append _ _ _ rfl)))

lemma alterStmt_head (p u : String) : (alterStmt p u).data.head? = some 'A' := by
  unfold alterStmt
  exact head_append _ _ _ (head_append _ _ _ (head_append _ _ _ (head_append _ _ _ rfl)))

lemma userCreateQuery_head (d : UserResourceModel) :
    (userCreateQuery d).data.head? = some 'S' := by
  unfold userCreateQuery
  exact head_append _ _ _ (head_append _ _ _ (head_append _ _ _
    (head_append _ _ _ (head_append _ _ _ (head_append _ _ _ rfl)))))

/-! ### Privilege loop lemmas -/

lemma privStringAux_ok (l : List String) :
    ∀ (last i : Nat) (acc : String),
      (∀ p ∈ l, removeQuotes (goQuote p) ∈ privilegeSlice) →
      (l ≠ [] → i + l.length = last + 1) →
      privStringAux l last i acc =
        Except.ok (acc ++ joinPrivs (l.map goQuote)) := by
  induction l with
  | nil =>
    intro last i acc _ _
    simp [privStringAux, joinPrivs, str_append_empty]
  | cons s rest ih =>
    intro last i acc hval hlen
    have hs : removeQuotes (goQuote s) ∈ privilegeSlice :=
      hval s (List.mem_cons_self s rest)
    have hlen' : i + (s :: rest).length = last + 1 := hlen (by simp)
    cases rest with
    | nil =>
      have hi : i = last := by
        simp [List.length] at hlen'
        omega
      simp [privStringAux, hs, hi, joinPrivs]
    | cons r rs =>
      have hi : i < last := by
        simp [List.length] at hlen'
        omega
      have hrec := ih last (i + 1) (acc ++ goQuote s ++ ", ")
        (fun p hp => hval p (List.mem_cons_of_mem s hp))
        (fun _ => by simp [List.length] at hlen' ⊢; omega)
      have hstep : privStringAux (s :: r :: rs) last i acc =
          if removeQuotes (goQuote s) ∈ privilegeSlice then
            if i < last then
              privStringAux (r :: rs) last (i + 1) (acc ++ goQuote s ++ ", ")
            else privStringAux (r :: rs) last (i + 1) (acc ++ goQuote s)
          else Except.error (goQuote s) := rfl
      rw [hstep, if_pos hs, if_pos hi, hrec]
      simp only [List.map_cons, joinPrivs, str_append_assoc]

lemma privStringAux_err (pre : List String) :
    ∀ (t : String) (rest : List String) (last i : Nat) (acc : String),
      (∀ p ∈ pre, removeQuotes (goQuote p) ∈ privilegeSlice) →
      removeQuotes (goQuote t) ∉ privilegeSlice →
      privStringAux (pre ++ t :: rest) last i acc = Except.error (goQuote t) := by
  induction pre with
  | nil =>
    intro t rest last i acc _ ht
    simp [privStringAux, ht]
  | cons s pr ih =>
    intro t rest last i acc hval ht
    have hs : removeQuotes (goQuote s) ∈ privilegeSlice :=
      hval s (List.mem_cons_self s pr)
    have hv' : ∀ p ∈ pr, removeQuotes (goQuote p) ∈ privilegeSlice :=
      fun p hp => hval p (List.mem_cons_of_mem s hp)
    have hstep : privStringAux ((s :: pr) ++ t :: rest) last i acc =
        if removeQuotes (goQuote s) ∈ privilegeSlice then
          if i < last then
            privStringAux (pr ++ t :: rest) last (i + 1) (acc ++ goQuote s ++ ", ")
          else privStringAux (pr ++ t :: rest) last (i + 1) (acc ++ goQuote s)
        else Except.error (goQuote s) := rfl
    rw [hstep, if_pos hs]
    by_cases hi : i < last
    · rw [if_pos hi, ih t rest last (i + 1) (acc ++ goQuote s ++ ", ") hv' ht]
    · rw [if_neg hi, ih t rest last (i + 1) (acc ++ goQuote s) hv' ht]

lemma renderPrivileges_ok (privs : List String)
    (h : ∀ p ∈ privs, removeQuotes (goQuote p) ∈ privilegeSlice) :
    renderPrivileges privs =
      Except.ok (removeQuotes (joinPrivs (privs.map goQuote))) := by
  cases privs with
  | nil => rfl
  | cons s rest =>
    unfold renderPrivileges
    rw [privStringAux_ok (s :: rest) ((s :: rest).length - 1) 0 "" h
      (fun _ => by simp [List.length])]
    rw [str_empty_append]

lemma renderPrivileges_err (pre : List String) (t : String) (rest : List String)
    (hpre : ∀ p ∈ pre, removeQuotes (goQuote p) ∈ privilegeSlice)
    (ht : removeQuotes (goQuote t) ∉ privilegeSlice) :
    renderPrivileges (pre ++ t :: rest) = Except.error (goQuote t) := by
  unfold renderPrivileges
  rw [privStringAux_err pre t rest _ 0 "" hpre ht]

lemma removeQuotes_joinPrivs_goQuote (privs : List String)
    (h : ∀ p ∈ privs, removeQuotes p = p) :
    removeQuotes (joinPrivs (privs.map goQuote)) = joinPrivs privs := by
  induction privs with
  | nil => rfl
  | cons s rest ih =>
    cases rest with
    | nil =>
      simp only [List.map_cons, List.map_nil, joinPrivs]
      rw [removeQuotes_goQuote, h s (List.mem_cons_self s [])]
    | cons r rs =>
      have hrec := ih (fun p hp => h p (List.mem_cons_of_mem s hp))
      simp only [List.map_cons, joinPrivs] at hrec ⊢
      rw [removeQuotes_append, removeQuotes_append, removeQuotes_goQuote,
        h s (List.mem_cons_self s _), removeQuotes_comma_space, hrec]

/-! ### Claim theorems -/

/-- Claim C1, counterexample: for the concrete record named `nate_db` (with
a working connection and a successful drop), the delete operation issues the
single statement `DROP DATABASE "nate_db"`, which is neither
`DROP DATABASE "nate_db" CASCADE` nor `DROP DATABASE "nate_db" RESTRICT`;
the model, like `DatabaseResourceModel` in the source, has no
`cascadeOnDelete` flag at all. -/
theorem database_delete_cascade_counterexample :
    (databaseDelete ⟨none, none⟩ ⟨"nate_db"⟩).executed =
        [Stmt.exec "DROP DATABASE \"nate_db\""] ∧
      (∀ s ∈ (databaseDelete ⟨none, none⟩ ⟨"nate_db"⟩).executed,
        s ≠ Stmt.exec "DROP DATABASE \"nate_db\" CASCADE" ∧
        s ≠ Stmt.exec "DROP DATABASE \"nate_db\" RESTRICT") := by
  constructor
  · rfl
  · decide

/-- Claim C1, amended: for every database record, once a connection is
established the delete operation issues exactly one statement,
`DROP DATABASE <name>` (the name rendered in double quotes), with no
CASCADE or RESTRICT variant and no cascade flag consulted. -/
theorem database_delete_plain_drop (env : DbDeleteEnv)
    (data : DatabaseResourceModel) (hconn : env.connectErr = none) :
    (databaseDelete env data).executed =
      [Stmt.exec ("DROP DATABASE " ++ goQuote data.name)] := by
  obtain ⟨ce, de⟩ := env
  cases hconn
  cases de <;> rfl

/-- Witness for the amended C1 theorem at the record named `nate_db`. -/
theorem database_delete_plain_drop_witness :
    (databaseDelete ⟨none, none⟩ ⟨"nate_db"⟩).executed =
      [Stmt.exec ("DROP DATABASE " ++ goQuote "nate_db")] :=
  database_delete_plain_drop ⟨none, none⟩ ⟨"nate_db"⟩ rfl

/-- Claim C7: for every database read whose catalog query returns zero rows
(the scan yields `sql.ErrNoRows`), the record is removed from persisted
state and no diagnostic of any kind is reported. -/
theorem database_read_no_rows_removes_state (env : DbReadEnv)
    (data : DatabaseResourceModel) (hconn : env.connectErr = none)
    (hscan : env.scanRes = Except.error SqlError.errNoRows) :
    (databaseRead env data).state = none ∧
      (databaseRead env data).diags = [] := by
  obtain ⟨ce, sr⟩ := env
  cases hconn
  cases hscan
  simp [databaseRead]

/-- Witness for C7 at the record named `nate_db`. -/
theorem database_read_no_rows_removes_state_witness :
    (databaseRead ⟨none, Except.error SqlError.errNoRows⟩ ⟨"nate_db"⟩).state = none ∧
      (databaseRead ⟨none, Except.error SqlError.errNoRows⟩ ⟨"nate_db"⟩).diags = [] :=
  database_read_no_rows_removes_state ⟨none, Except.error SqlError.errNoRows⟩
    ⟨"nate_db"⟩ rfl rfl

/-- Claim C8: for every user read in which the grants query fails for any
reason, the record is removed from persisted state and the operation
returns without reporting an error diagnostic. -/
theorem user_read_query_failure_removes_state (env : UserReadEnv)
    (data : UserResourceModel) (e : SqlError)
    (hconn : env.connectErr = none)
    (hq : env.queryRes = Except.error e) :
    (userRead env data).state = none ∧ (userRead env data).diags = [] := by
  obtain ⟨ce, qr⟩ := env
  cases hconn
  cases hq
  simp [userRead]

/-- Witness for C8 at a concrete user and a concrete query error. -/
theorem user_read_query_failure_removes_state_witness :
    (userRead ⟨none, Except.error (SqlError.other "tx aborted")⟩
        ⟨"alice", "pw", "appdb", ["select"]⟩).state = none ∧
      (userRead ⟨none, Except.error (SqlError.other "tx aborted")⟩
        ⟨"alice", "pw", "appdb", ["select"]⟩).diags = [] :=
  user_read_query_failure_removes_state
    ⟨none, Except.error (SqlError.other "tx aborted")⟩
    ⟨"alice", "pw", "appdb", ["select"]⟩ (SqlError.other "tx aborted") rfl rfl

/-- Claim C10: for every database read whose catalog query fails with any
error other than `sql.ErrNoRows`, no diagnostic is reported, the resource
is not removed, and the persisted record's name is overwritten with the
empty string left in the scan target — which differs from the held name. -/
theorem database_read_other_error_blanks_name (env : DbReadEnv)
    (data : DatabaseResourceModel) (e : SqlError)
    (hconn : env.connectErr = none)
    (hscan : env.scanRes = Except.error e)
    (hne : e ≠ SqlError.errNoRows)
    (hname : data.name ≠ "") :
    (databaseRead env data).diags = [] ∧
      (databaseRead env data).state = some { name := "" } ∧
      (some { name := "" } : Option DatabaseResourceModel) ≠ none ∧
      ({ name := "" } : DatabaseResourceModel).name ≠ data.name := by
  obtain ⟨ce, sr⟩ := env
  cases hconn
  cases hscan
  cases e with
  | errNoRows => exact absurd rfl hne
  | other m =>
    refine ⟨?_, ?_, by simp, fun h => hname (by simpa using h.symm)⟩ <;>
      simp [databaseRead, Ne.symm hname]

/-- Witness for C10 at the record named `nate_db` and a non-no-rows error. -/
theorem database_read_other_error_blanks_name_witness :
    (databaseRead ⟨none, Except.error (SqlError.other "conn reset")⟩
        ⟨"nate_db"⟩).diags = [] ∧
      (databaseRead ⟨none, Except.error (SqlError.other "conn reset")⟩
        ⟨"nate_db"⟩).state = some { name := "" } ∧
      (some { name := "" } : Option DatabaseResourceModel) ≠ none ∧
      ({ name := "" } : DatabaseResourceModel).name ≠ "nate_db" := by
  have h := database_read_other_error_blanks_name
    ⟨none, Except.error (SqlError.other "conn reset")⟩ ⟨"nate_db"⟩
    (SqlError.other "conn reset") rfl rfl (by decide) (by decide)
  exact h

/-- Claim C6 (code bug): on the user-read path where the grants query fails,
the function returns through the early `return` at user_resource.go line
173, before the `defer client.Close()` written at line 185 is ever
executed, so the successfully opened handle is never closed. At this
concrete input the operation reports `opened = true` but `closed = false`,
contradicting the claim that every operation closes its handle on every
path. -/
theorem user_read_handle_leak :
    (userRead ⟨none, Except.error (SqlError.other "connection reset")⟩
        ⟨"alice", "pw", "appdb", ["select"]⟩).opened = true ∧
      (userRead ⟨none, Except.error (SqlError.other "connection reset")⟩
        ⟨"alice", "pw", "appdb", ["select"]⟩).closed = false :=
  ⟨rfl, rfl⟩

/-- Claim C3: for every privilege sequence of at most four elements drawn
from the valid vocabulary (any order, repetition allowed), validation
succeeds and the rendered privilege string is the element names joined by
the two-character separator `", "` in input order. -/
theorem privilege_render_valid_sequences (privs : List String)
    (_hlen : privs.length ≤ 4) (hmem : ∀ p ∈ privs, p ∈ privilegeSlice) :
    renderPrivileges privs = Except.ok (joinPrivs privs) := by
  have hv : ∀ p ∈ privs, removeQuotes (goQuote p) ∈ privilegeSlice := by
    intro p hp
    rw [removeQuotes_goQuote, removeQuotes_of_mem_privilegeSlice (hmem p hp)]
    exact hmem p hp
  rw [renderPrivileges_ok privs hv, removeQuotes_joinPrivs_goQuote privs
    (fun p hp => removeQuotes_of_mem_privilegeSlice (hmem p hp))]

/-- Witness for C3 at the concrete sequence `[insert, select, insert]`. -/
theorem privilege_render_valid_sequences_witness :
    renderPrivileges ["insert", "select", "insert"] =
      Except.ok "insert, select, insert" := by
  have h := privilege_render_valid_sequences ["insert", "select", "insert"]
    (by decide) (by decide)
  simpa [joinPrivs] using h

/-- Claim C4: for every user create whose privilege list contains an
invalid token (`t` invalid, everything before it valid), the operation
fails with the validation diagnostic naming that first invalid token and
returns before any SQL statement — including CREATE USER — is issued. -/
theorem user_create_invalid_privilege (env : UserCreateEnv)
    (data : UserResourceModel) (pre : List String) (t : String)
    (rest : List String)
    (hpriv : data.privileges = pre ++ t :: rest)
    (hpre : ∀ p ∈ pre, removeQuotes (goQuote p) ∈ privilegeSlice)
    (ht : removeQuotes (goQuote t) ∉ privilegeSlice)
    (hconn : env.connectErr = none) :
    (userCreate env data).diags =
        [("Invalid privilege", "Unable to set invalid privilege: " ++ goQuote t)] ∧
      (userCreate env data).executed = [] ∧
      (userCreate env data).state = none := by
  obtain ⟨ce, cue, tb, ge, ae⟩ := env
  cases hconn
  have hr : renderPrivileges data.privileges = Except.error (goQuote t) := by
    rw [hpriv]
    exact renderPrivileges_err pre t rest hpre ht
  simp [userCreate, hr]

/-- Witness for C4: the list `[select, drop]` fails on `drop` with no SQL
issued. -/
theorem user_create_invalid_privilege_witness :
    (userCreate ⟨none, none, [], none, none⟩
        ⟨"bob", "pw", "appdb", ["select", "drop"]⟩).diags =
        [("Invalid privilege", "Unable to set invalid privilege: " ++ goQuote "drop")] ∧
      (userCreate ⟨none, none, [], none, none⟩
        ⟨"bob", "pw", "appdb", ["select", "drop"]⟩).executed = [] ∧
      (userCreate ⟨none, none, [], none, none⟩
        ⟨"bob", "pw", "appdb", ["select", "drop"]⟩).state = none :=
  user_create_invalid_privilege ⟨none, none, [], none, none⟩
    ⟨"bob", "pw", "appdb", ["select", "drop"]⟩ ["select"] "drop" []
    rfl (by decide) (by decide) rfl

/-- Claim C2: for every user create that reaches the grant phase, if the
database contains zero tables only the ALTER DEFAULT PRIVILEGES statement
is issued after the CREATE USER statement and the table probe — the direct
`GRANT ... ON * ...` statement is not among the issued statements; if the
database contains at least one table, both the direct GRANT and the ALTER
DEFAULT PRIVILEGES statements are issued, in that order. -/
theorem user_create_grant_branches (env : UserCreateEnv)
    (data : UserResourceModel) (hconn : env.connectErr = none)
    (hval : ∀ p ∈ data.privileges, removeQuotes (goQuote p) ∈ privilegeSlice)
    (hcu : env.createUserErr = none) :
    (env.tables = [] →
        (userCreate env data).executed =
            [Stmt.exec (userCreateQuery data), Stmt.queryRow "SHOW TABLES;",
              Stmt.exec (alterStmt (renderedPrivs data.privileges) data.username)] ∧
          Stmt.exec (grantStmt (renderedPrivs data.privileges) data.username) ∉
            (userCreate env data).executed) ∧
      (env.tables ≠ [] →
        (userCreate env data).executed =
          [Stmt.exec (userCreateQuery data), Stmt.queryRow "SHOW TABLES;",
            Stmt.exec (grantStmt (renderedPrivs data.privileges) data.username),
            Stmt.exec (alterStmt (renderedPrivs data.privileges) data.username)]) := by
  obtain ⟨ce, cue, tb, ge, ae⟩ := env
  cases hconn
  cases hcu
  have hr : renderPrivileges data.privileges =
      Except.ok (renderedPrivs data.privileges) :=
    renderPrivileges_ok data.privileges hval
  constructor
  · intro htb
    subst htb
    have hex : (userCreate ⟨none, none, [], ge, ae⟩ data).executed =
        [Stmt.exec (userCreateQuery data), Stmt.queryRow "SHOW TABLES;",
          Stmt.exec (alterStmt (renderedPrivs data.privileges) data.username)] := by
      simp [userCreate, hr]
    refine ⟨hex, ?_⟩
    rw [hex]
    have hgq : grantStmt (renderedPrivs data.privileges) data.username ≠
        userCreateQuery data :=
      string_ne_of_head (grantStmt_head _ _) (userCreateQuery_head _) (by decide)
    have hga : grantStmt (renderedPrivs data.privileges) data.username ≠
        alterStmt (renderedPrivs data.privileges) data.username :=
      string_ne_of_head (grantStmt_head _ _) (alterStmt_head _ _) (by decide)
    simp [hgq, hga]
  · intro htb
    have htb' : tb.isEmpty = false := by
      cases tb with
      | nil => exact absurd rfl htb
      | cons x xs => rfl
    simp [userCreate, hr, htb']

/-- Witness for C2: with one existing table both grant statements are
issued; the zero-table implication is vacuous at this input. -/
theorem user_create_grant_branches_witness :
    (([("t1" : String)] = ([] : List String) →
        (userCreate ⟨none, none, ["t1"], none, none⟩
            ⟨"bob", "pw", "appdb", ["select"]⟩).executed =
            [Stmt.exec (userCreateQuery ⟨"bob", "pw", "appdb", ["select"]⟩),
              Stmt.queryRow "SHOW TABLES;",
              Stmt.exec (alterStmt (renderedPrivs ["select"]) "bob")] ∧
          Stmt.exec (grantStmt (renderedPrivs ["select"]) "bob") ∉
            (userCreate ⟨none, none, ["t1"], none, none⟩
              ⟨"bob", "pw", "appdb", ["select"]⟩).executed) ∧
      (([("t1" : String)] : List String) ≠ [] →
        (userCreate ⟨none, none, ["t1"], none, none⟩
            ⟨"bob", "pw", "appdb", ["select"]⟩).executed =
          [Stmt.exec (userCreateQuery ⟨"bob", "pw", "appdb", ["select"]⟩),
            Stmt.queryRow "SHOW TABLES;",
            Stmt.exec (grantStmt (renderedPrivs ["select"]) "bob"),
            Stmt.exec (alterStmt (renderedPrivs ["select"]) "bob")])) :=
  user_create_grant_branches ⟨none, none, ["t1"], none, none⟩
    ⟨"bob", "pw", "appdb", ["select"]⟩ rfl (by decide) rfl

/-- Claim C9: for every user create in which the CREATE USER statement
succeeds, the operation reports no diagnostics and persists the desired
record, and the result is entirely independent of whether the subsequent
GRANT / ALTER DEFAULT PRIVILEGES executions fail — their errors are
discarded. The same holds for the re-create half of user update once its
drop phase and CREATE USER succeed. -/
theorem user_grant_alter_errors_discarded (envC : UserCreateEnv)
    (envU : UserUpdateEnv) (st data : UserResourceModel)
    (hval : ∀ p ∈ data.privileges, removeQuotes (goQuote p) ∈ privilegeSlice)
    (hc1 : envC.connectErr = none) (hc2 : envC.createUserErr = none)
    (hu1 : envU.connectErr = none) (hu2 : envU.dropErr = none)
    (hu3 : envU.createUserErr = none) :
    (userCreate envC data).diags = [] ∧
      (userCreate envC data).state = some data ∧
      (userUpdate envU st data).diags = [] ∧
      (userUpdate envU st data).state = some data ∧
      (∀ g a g' a' : Option SqlError,
        userCreate { envC with grantErr := g, alterErr := a } data =
          userCreate { envC with grantErr := g', alterErr := a' } data) ∧
      (∀ g a g' a' : Option SqlError,
        userUpdate { envU with grantErr := g, alterErr := a } st data =
          userUpdate { envU with grantErr := g', alterErr := a' } st data) := by
  obtain ⟨ce, cue, tb, ge, ae⟩ := envC
  obtain ⟨uce, utb, ude, ucue, uta, uge, uae⟩ := envU
  cases hc1
  cases hc2
  cases hu1
  cases hu2
  cases hu3
  have hr : renderPrivileges data.privileges =
      Except.ok (renderedPrivs data.privileges) :=
    renderPrivileges_ok data.privileges hval
  refine ⟨?_, ?_, ?_, ?_, fun g a g' a' => rfl, fun g a g' a' => rfl⟩ <;>
    cases tb <;> cases uta <;> simp [userCreate, userUpdate, hr]

/-- Witness for C9 at concrete create and update environments. -/
theorem user_grant_alter_errors_discarded_witness :
    (userCreate ⟨none, none, ["t1"], some (SqlError.other "boom"), none⟩
        ⟨"bob", "pw", "appdb", ["select"]⟩).diags = [] ∧
      (userCreate ⟨none, none, ["t1"], some (SqlError.other "boom"), none⟩
        ⟨"bob", "pw", "appdb", ["select"]⟩).state =
        some ⟨"bob", "pw", "appdb", ["select"]⟩ ∧
      (userUpdate ⟨none, [], none, none, [], none, some (SqlError.other "boom")⟩
        ⟨"old", "pw0", "appdb", ["select"]⟩
        ⟨"bob", "pw", "appdb", ["select"]⟩).diags = [] ∧
      (userUpdate ⟨none, [], none, none, [], none, some (SqlError.other "boom")⟩
        ⟨"old", "pw0", "appdb", ["select"]⟩
        ⟨"bob", "pw", "appdb", ["select"]⟩).state =
        some ⟨"bob", "pw", "appdb", ["select"]⟩ ∧
      (∀ g a g' a' : Option SqlError,
        userCreate ⟨none, none, ["t1"], g, a⟩ ⟨"bob", "pw", "appdb", ["select"]⟩ =
          userCreate ⟨none, none, ["t1"], g', a'⟩
            ⟨"bob", "pw", "appdb", ["select"]⟩) ∧
      (∀ g a g' a' : Option SqlError,
        userUpdate ⟨none, [], none, none, [], g, a⟩
            ⟨"old", "pw0", "appdb", ["select"]⟩
            ⟨"bob", "pw", "appdb", ["select"]⟩ =
          userUpdate ⟨none, [], none, none, [], g', a'⟩
            ⟨"old", "pw0", "appdb", ["select"]⟩
            ⟨"bob", "pw", "appdb", ["select"]⟩) :=
  user_grant_alter_errors_discarded
    ⟨none, none, ["t1"], some (SqlError.other "boom"), none⟩
    ⟨none, [], none, none, [], none, some (SqlError.other "boom")⟩
    ⟨"old", "pw0", "appdb", ["select"]⟩ ⟨"bob", "pw", "appdb", ["select"]⟩
    (by decide) rfl rfl rfl rfl rfl

/-- Claim C5: for every changefeed update, once connected the operation
issues `CANCEL JOB` for the prior job id strictly before any
CREATE CHANGEFEED statement; if the cancel fails the update aborts with a
diagnostic, no CREATE CHANGEFEED query is ever issued and the prior record
is left in state; if the whole update succeeds, the persisted record's job
id is the scalar value scanned from the create statement's single row, and
when that fresh value differs from the prior id the persisted id differs
from the prior id. -/
theorem changefeed_update_cancel_then_create (env : CfUpdateEnv)
    (data data2 : ChangefeedResourceModel) (hconn : env.connectErr = none) :
    ((∀ e, env.cancelErr = some e →
        (changefeedUpdate env data data2).executed =
            [Stmt.exec (cfCancelQuery data data2)] ∧
          (∀ s, Stmt.queryRow s ∉ (changefeedUpdate env data data2).executed) ∧
          (changefeedUpdate env data data2).state = some data2 ∧
          (changefeedUpdate env data data2).diags ≠ []) ∧
      (env.cancelErr = none →
        (changefeedUpdate env data data2).executed =
          [Stmt.exec (cfCancelQuery data data2),
            Stmt.queryRow (cfCreateQuery data)]) ∧
      (∀ v, env.cancelErr = none → env.createRes = Except.ok v →
        (changefeedUpdate env data data2).state =
            some { data with jobID := v } ∧
          (v ≠ data2.jobID →
            ({ data with jobID := v } : ChangefeedResourceModel).jobID ≠
              data2.jobID))) := by
  obtain ⟨ce, cae, cre⟩ := env
  cases hconn
  refine ⟨?_, ?_, ?_⟩
  · intro e he
    cases he
    simp [changefeedUpdate]
  · intro hc
    cases hc
    cases cre <;> simp [changefeedUpdate]
  · intro v hc hcr
    cases hc
    cases hcr
    exact ⟨by simp [changefeedUpdate], fun h => h⟩

/-- Witness for C5 at a concrete successful update: prior job id `123`,
fresh id `456`. -/
theorem changefeed_update_cancel_then_create_witness :
    (changefeedUpdate ⟨none, none, Except.ok "456"⟩
          ⟨"orders", "bkt", "tok", "appdb", "999"⟩
          ⟨"orders", "oldbkt", "tok", "appdb", "123"⟩).executed =
        [Stmt.exec (cfCancelQuery ⟨"orders", "bkt", "tok", "appdb", "999"⟩
            ⟨"orders", "oldbkt", "tok", "appdb", "123"⟩),
          Stmt.queryRow (cfCreateQuery ⟨"orders", "bkt", "tok", "appdb", "999"⟩)] ∧
      (changefeedUpdate ⟨none, none, Except.ok "456"⟩
          ⟨"orders", "bkt", "tok", "appdb", "999"⟩
          ⟨"orders", "oldbkt", "tok", "appdb", "123"⟩).state =
        some ⟨"orders", "bkt", "tok", "appdb", "456"⟩ := by
  have h := changefeed_update_cancel_then_create ⟨none, none, Except.ok "456"⟩
    ⟨"orders", "bkt", "tok", "appdb", "999"⟩
    ⟨"orders", "oldbkt", "tok", "appdb", "123"⟩ rfl
  exact ⟨h.2.1 rfl, (h.2.2 "456" rfl rfl).1⟩

end CrdbProvider
